import Mathlib

/-!
Shallow embedding of the weather application's core (`src/App.tsx`): the
`fetchWeather` request orchestration, the sample-to-forecast reduction, and the
`WeatherIcon` condition branching.  JavaScript numbers are modelled as rationals,
`Math.round` as floor of `q + 1/2` (JavaScript rounds halves toward positive
infinity), the viewer's local time zone as a fixed offset `tz` in seconds added
to the unix timestamp, and a thrown exception inside the `try` block as `none`.
-/

namespace WeatherApp

/-- JavaScript `Math.round`: nearest integer, halves rounding up. -/
def mathRound (q : ℚ) : ℤ := ⌊q + 1/2⌋

/-- JavaScript `String.prototype.trim`, modelled on the character list: strip
leading and trailing whitespace. -/
def jsTrim (s : String) : String :=
  ⟨(((s.data.dropWhile Char.isWhitespace).reverse).dropWhile Char.isWhitespace).reverse⟩

/-- The `main` object of one element of the provider response `list`. -/
structure MainData where
  temp : ℚ
  feels_like : ℚ
  temp_max : ℚ
  temp_min : ℚ
  humidity : ℚ
  pressure : ℚ
deriving DecidableEq

/-- The `wind` object of one element of the provider response `list`. -/
structure WindData where
  speed : ℚ
deriving DecidableEq

/-- One element of the provider response `list` (a weather sample).  The field
`weather` models the JSON `weather` array by the list of the `main` strings of
its objects; `none` models a missing `weather` field. -/
structure WeatherItem where
  dt : ℤ
  main : MainData
  weather : Option (List String)
  wind : WindData
  visibility : ℚ
deriving DecidableEq

/-- The JavaScript access `item.weather[0].main`: `none` models the TypeError
thrown when the `weather` field is missing or the array is empty. -/
def weather0main (item : WeatherItem) : Option String :=
  item.weather.bind List.head?

/-- Local civil day number (days since 1970-01-01 in the viewer's time zone) of
`new Date(item.dt * 1000)`, for a fixed zone offset `tz` in seconds. -/
def localDay (tz : ℤ) (item : WeatherItem) : ℤ := (item.dt + tz) / 86400

/-- `date.getHours()` of `new Date(item.dt * 1000)` for zone offset `tz`. -/
def localHour (tz : ℤ) (item : WeatherItem) : ℤ := ((item.dt + tz) / 3600) % 24

/-- Short weekday name of a civil day number (1970-01-01 was a Thursday). -/
def weekdayName (day : ℤ) : String :=
  match ((day + 4) % 7).toNat with
  | 0 => "Sun"
  | 1 => "Mon"
  | 2 => "Tue"
  | 3 => "Wed"
  | 4 => "Thu"
  | 5 => "Fri"
  | _ => "Sat"

/-- Short month name for a month number in `1..12`. -/
def monthName (m : ℤ) : String :=
  match m.toNat with
  | 1 => "Jan"
  | 2 => "Feb"
  | 3 => "Mar"
  | 4 => "Apr"
  | 5 => "May"
  | 6 => "Jun"
  | 7 => "Jul"
  | 8 => "Aug"
  | 9 => "Sep"
  | 10 => "Oct"
  | 11 => "Nov"
  | _ => "Dec"

/-- Gregorian month and day-of-month of a civil day number, by the standard
days-to-civil conversion. -/
def civilMonthDay (day : ℤ) : ℤ × ℤ :=
  let z := day + 719468
  let era := z / 146097
  let doe := z - era * 146097
  let yoe := (doe - doe / 1460 + doe / 36524 - doe / 146096) / 365
  let doy := doe - (365 * yoe + yoe / 4 - yoe / 100)
  let mp := (5 * doy + 2) / 153
  let d := doy - (153 * mp + 2) / 5 + 1
  let m := if mp < 10 then mp + 3 else mp - 9
  (m, d)

/-- `date.toLocaleDateString('en-US', { weekday: 'short', month: 'short',
day: 'numeric' })`, e.g. "Sat, Oct 11", as a function of the local day number. -/
def localeDateShort (day : ℤ) : String :=
  let md := civilMonthDay day
  weekdayName day ++ ", " ++ monthName md.1 ++ " " ++ toString md.2

/-- The `current` object built at lines 64-72 of `App.tsx`. -/
structure CurrentData where
  temp : ℤ
  feelsLike : ℤ
  condition : String
  humidity : ℚ
  windSpeed : ℤ
  pressure : ℚ
  visibility : ℤ
deriving DecidableEq

/-- One element pushed onto `forecast` at lines 84-89 of `App.tsx`. -/
structure ForecastEntry where
  date : String
  high : ℤ
  low : ℤ
  condition : String
deriving DecidableEq

/-- The `WeatherData` record stored by `setWeather` on success. -/
structure WeatherData where
  city : String
  current : CurrentData
  forecast : List ForecastEntry
deriving DecidableEq

/-- Lines 64-72 of `App.tsx`: current conditions from `data.list[0]`.  `none`
models the exception thrown when the list is empty or the first item's
`weather` array is missing or empty. -/
def processCurrent (list : List WeatherItem) : Option CurrentData :=
  match list with
  | [] => none
  | item :: _ =>
    match weather0main item with
    | none => none
    | some cond =>
      some { temp := mathRound item.main.temp
             feelsLike := mathRound item.main.feels_like
             condition := cond
             humidity := item.main.humidity
             windSpeed := mathRound (item.wind.speed * 3.6)
             pressure := item.main.pressure
             visibility := mathRound (item.visibility / 1000) }

/-- The object pushed onto `forecast` at lines 84-89 of `App.tsx`, given the
condition string read from `item.weather[0].main`. -/
def itemEntry (tz : ℤ) (item : WeatherItem) (cond : String) : ForecastEntry :=
  { date := localeDateShort (localDay tz item)
    high := mathRound item.main.temp_max
    low := mathRound item.main.temp_min
    condition := cond }

/-- Lines 74-93 of `App.tsx`: the forecast bucketing loop.  `processedDates`
is the `Set` of already-represented dates (as local day numbers, which are in
bijection with the `toLocaleDateString()` keys of the source) and `acc` the
`forecast` array built so far.  Each pushed entry is paired with the local day
number it represents, a ghost component used to state date invariants; `none`
models an exception thrown while building an entry. -/
def processForecast (tz : ℤ) :
    List WeatherItem → List ℤ → List (ℤ × ForecastEntry) →
      Option (List (ℤ × ForecastEntry))
  | [], _, acc => some acc
  | item :: rest, processedDates, acc =>
    let dayKey := localDay tz item
    if dayKey ∉ processedDates ∧ localHour tz item = 12 then
      match weather0main item with
      | none => none
      | some cond =>
        let acc2 := acc ++ [(dayKey, itemEntry tz item cond)]
        if acc2.length = 3 then some acc2
        else processForecast tz rest (dayKey :: processedDates) acc2
    else processForecast tz rest processedDates acc

/-- The forecast loop started with empty `processedDates` and empty `forecast`,
keeping the ghost day numbers. -/
def forecastPairs (tz : ℤ) (list : List WeatherItem) :
    Option (List (ℤ × ForecastEntry)) :=
  processForecast tz list [] []

/-- The local day numbers represented by the produced forecast entries, in
scan order. -/
def forecastDays (tz : ℤ) (list : List WeatherItem) : Option (List ℤ) :=
  (forecastPairs tz list).map (List.map Prod.fst)

/-- The Forecast Reducer (spec §4.2): lines 64-93 of `App.tsx`, from the raw
sample sequence to current conditions and the forecast list.  `none` models an
exception escaping to the `catch` block. -/
def reduce (tz : ℤ) (list : List WeatherItem) :
    Option (CurrentData × List ForecastEntry) :=
  match processCurrent list with
  | none => none
  | some current =>
    match forecastPairs tz list with
    | none => none
    | some pairs => some (current, pairs.map Prod.snd)

/-- The four React state hooks of `App`. -/
structure QueryState where
  city : String
  weather : Option WeatherData
  loading : Bool
  error : String
deriving DecidableEq

/-- Outcome of the provider interaction, as seen from inside the `try` block:
the `fetch` promise rejects, `response.ok` is false, `response.json()` rejects,
or a parsed body with the resolved city name and the sample list. -/
inductive ProviderResponse where
  | fetchFailed
  | notOk
  | badJson
  | ok (cityName : String) (list : List WeatherItem)
deriving DecidableEq

/-- The fixed user-facing message set by the `catch` block at line 101. -/
def fetchErrorMessage : String :=
  "Unable to fetch weather data. Please check the city name and try again."

/-- Lines 47-48: `setLoading(true); setError('')`. -/
def startRequest (s : QueryState) : QueryState :=
  { s with loading := true, error := "" }

/-- Lines 100-105: the `catch` block followed by `finally`. -/
def failState (s : QueryState) : QueryState :=
  { s with error := fetchErrorMessage, weather := none, loading := false }

/-- Settling of an in-flight request: every failure reaches the single `catch`
block (the thrown "City not found" for a non-ok status included), a success
stores the reduced `WeatherData`, and `finally` clears `loading`. -/
def settleRequest (tz : ℤ) (resp : ProviderResponse) (s : QueryState) :
    QueryState :=
  match resp with
  | .fetchFailed => failState s
  | .notOk => failState s
  | .badJson => failState s
  | .ok cityName list =>
    match reduce tz list with
    | none => failState s
    | some res =>
      { s with
        weather := some { city := cityName, current := res.1, forecast := res.2 }
        loading := false }

/-- Lines 43-106 of `App.tsx`: one complete run of `fetchWeather` for a given
provider outcome — the guard on the trimmed city, the in-flight start, and the
settling. -/
def fetchWeather (tz : ℤ) (resp : ProviderResponse) (s : QueryState) :
    QueryState :=
  if jsTrim s.city = "" then s
  else settleRequest tz resp (startRequest s)

/-- The four icons `WeatherIcon` can render. -/
inductive Icon where
  | cloudRain
  | cloud
  | cloudSnow
  | sun
deriving DecidableEq

/-- Lines 23-35 of `App.tsx`: the `WeatherIcon` component's choice of icon from
the condition string. -/
def weatherIcon (condition : String) : Icon :=
  let lower := condition.toLower
  if lower.containsSubstr "rain" || lower.containsSubstr "drizzle" then .cloudRain
  else if lower.containsSubstr "cloud" then .cloud
  else if lower.containsSubstr "snow" then .cloudSnow
  else .sun

/-- Spec-side selection, written from the claim's words: a sample is selected
iff its local hour equals 12 and no earlier selected sample shares its local
calendar date, and selection stops as soon as 3 samples have been selected.
`seenDays` holds the days of the samples selected so far and `count` their
number. -/
def selectRepresentatives (tz : ℤ) :
    List WeatherItem → List ℤ → ℕ → List WeatherItem
  | [], _, _ => []
  | item :: rest, seenDays, count =>
    if 3 ≤ count then []
    else if localHour tz item = 12 ∧ localDay tz item ∉ seenDays then
      item :: selectRepresentatives tz rest (localDay tz item :: seenDays) (count + 1)
    else selectRepresentatives tz rest seenDays count

/-- Spec-side entry built from a selected sample: short-weekday + short-month +
day-number label, high and low rounded from `temp_max` and `temp_min`, and the
condition taken verbatim from the sample. -/
def entryOfItem (tz : ℤ) (item : WeatherItem) : ForecastEntry :=
  { date := localeDateShort (localDay tz item)
    high := mathRound item.main.temp_max
    low := mathRound item.main.temp_min
    condition := (weather0main item).getD "" }

/-- A sample with the given timestamp, a present condition, and zeroed numeric
fields; used for concrete evaluations. -/
def plainItem (dt : ℤ) : WeatherItem :=
  { dt := dt
    main := { temp := 0, feels_like := 0, temp_max := 0, temp_min := 0,
              humidity := 0, pressure := 0 }
    weather := some ["Clear"]
    wind := { speed := 0 }
    visibility := 0 }

/-- A sample whose `weather` field is missing. -/
def noWeatherItem (dt : ℤ) : WeatherItem :=
  { plainItem dt with weather := none }

/-- Once three samples are selected the spec-side selection is over. -/
theorem selectRepresentatives_count_ge (tz : ℤ) (list : List WeatherItem)
    (seen : List ℤ) (count : ℕ) (h : 3 ≤ count) :
    selectRepresentatives tz list seen count = [] := by
  cases list <;> simp [selectRepresentatives, h]

/-- Unfolding equation of the bucketing loop on a non-empty list. -/
theorem processForecast_cons (tz : ℤ) (item : WeatherItem)
    (rest : List WeatherItem) (seen : List ℤ) (acc : List (ℤ × ForecastEntry)) :
    processForecast tz (item :: rest) seen acc =
      if localDay tz item ∉ seen ∧ localHour tz item = 12 then
        match weather0main item with
        | none => none
        | some cond =>
          let acc2 := acc ++ [(localDay tz item, itemEntry tz item cond)]
          if acc2.length = 3 then some acc2
          else processForecast tz rest (localDay tz item :: seen) acc2
      else processForecast tz rest seen acc := rfl

/-- Every settled state either is the failure state or stores a successfully
reduced result with `loading` cleared. -/
theorem settleRequest_cases (tz : ℤ) (resp : ProviderResponse) (t : QueryState) :
    settleRequest tz resp t = failState t ∨
    ∃ name list res, resp = .ok name list ∧ reduce tz list = some res ∧
      settleRequest tz resp t =
        { t with
          weather := some { city := name, current := res.1, forecast := res.2 }
          loading := false } := by
  cases resp with
  | fetchFailed => exact Or.inl rfl
  | notOk => exact Or.inl rfl
  | badJson => exact Or.inl rfl
  | ok name list =>
    cases hr : reduce tz list with
    | none => exact Or.inl (by simp [settleRequest, hr])
    | some res =>
      exact Or.inr ⟨name, list, res, rfl, hr, by simp [settleRequest, hr]⟩

/-- C2: for a well-formed sample sequence, the current conditions come from the
first sample only — the tail is irrelevant — with temperature and feels-like
rounded, humidity and pressure unchanged, wind speed multiplied by 3.6 and
rounded, and visibility divided by 1000 and rounded; and the current component
of the full reduction is exactly this value. -/
theorem current_from_first_sample (tz : ℤ) (item : WeatherItem)
    (rest restAlt : List WeatherItem) (cond : String)
    (hw : weather0main item = some cond) :
    processCurrent (item :: rest) = processCurrent (item :: restAlt) ∧
    processCurrent (item :: rest) =
      some { temp := mathRound item.main.temp
             feelsLike := mathRound item.main.feels_like
             condition := cond
             humidity := item.main.humidity
             windSpeed := mathRound (item.wind.speed * 3.6)
             pressure := item.main.pressure
             visibility := mathRound (item.visibility / 1000) } ∧
    (∀ res, reduce tz (item :: rest) = some res →
      some res.1 = processCurrent (item :: rest)) := by
  refine ⟨rfl, by simp [processCurrent, hw], ?_⟩
  intro res hres
  unfold reduce at hres
  cases hc : processCurrent (item :: rest) with
  | none => rw [hc] at hres; exact absurd hres (by simp)
  | some current =>
    rw [hc] at hres
    cases hfp : forecastPairs tz (item :: rest) with
    | none => rw [hfp] at hres; exact absurd hres (by simp)
    | some pairs =>
      rw [hfp] at hres
      obtain rfl := Option.some.inj hres
      exact rfl

/-- C2 witness: instantiation at a concrete one-sample sequence. -/
theorem current_from_first_sample_witness :
    weather0main (plainItem 43200) = some "Clear" ∧
    (processCurrent [plainItem 43200] = processCurrent [plainItem 43200] ∧
     processCurrent [plainItem 43200] =
       some { temp := mathRound (plainItem 43200).main.temp
              feelsLike := mathRound (plainItem 43200).main.feels_like
              condition := "Clear"
              humidity := (plainItem 43200).main.humidity
              windSpeed := mathRound ((plainItem 43200).wind.speed * 3.6)
              pressure := (plainItem 43200).main.pressure
              visibility := mathRound ((plainItem 43200).visibility / 1000) } ∧
     (∀ res, reduce 0 [plainItem 43200] = some res →
       some res.1 = processCurrent [plainItem 43200])) :=
  ⟨by decide, current_from_first_sample 0 (plainItem 43200) [] [] "Clear" (by decide)⟩

/-- C4: during a request's lifetime the in-flight phase has the error cleared,
settling clears in-flight, and a settled error state never coexists with a
stored result (nor a stored result with a non-empty error). -/
theorem inflight_error_exclusive (tz : ℤ) (resp : ProviderResponse)
    (s : QueryState) (h : jsTrim s.city ≠ "") :
    (startRequest s).loading = true ∧ (startRequest s).error = "" ∧
    fetchWeather tz resp s = settleRequest tz resp (startRequest s) ∧
    (fetchWeather tz resp s).loading = false ∧
    ((fetchWeather tz resp s).error ≠ "" → (fetchWeather tz resp s).weather = none) ∧
    (∀ w, (fetchWeather tz resp s).weather = some w →
      (fetchWeather tz resp s).error = "") := by
  have hfw : fetchWeather tz resp s = settleRequest tz resp (startRequest s) := by
    simp [fetchWeather, h]
  refine ⟨rfl, rfl, hfw, ?_, ?_, ?_⟩
  · rw [hfw]
    rcases settleRequest_cases tz resp (startRequest s) with hc | ⟨_, _, _, _, _, hc⟩ <;>
      rw [hc]
    rfl
  · rw [hfw]
    rcases settleRequest_cases tz resp (startRequest s) with hc | ⟨_, _, _, _, _, hc⟩ <;>
      rw [hc]
    · intro _; rfl
    · intro hne; exact absurd rfl hne
  · rw [hfw]
    rcases settleRequest_cases tz resp (startRequest s) with hc | ⟨_, _, _, _, _, hc⟩ <;>
      rw [hc]
    · intro w hw; exact absurd hw (by simp [failState])
    · intro w _; rfl

/-- C4 witness: instantiation at a concrete state and response. -/
theorem inflight_error_exclusive_witness :
    jsTrim "London" ≠ "" ∧
    ((startRequest ⟨"London", none, false, ""⟩).loading = true ∧
     (startRequest ⟨"London", none, false, ""⟩).error = "" ∧
     fetchWeather 0 .notOk ⟨"London", none, false, ""⟩ =
       settleRequest 0 .notOk (startRequest ⟨"London", none, false, ""⟩) ∧
     (fetchWeather 0 .notOk ⟨"London", none, false, ""⟩).loading = false ∧
     ((fetchWeather 0 .notOk ⟨"London", none, false, ""⟩).error ≠ "" →
       (fetchWeather 0 .notOk ⟨"London", none, false, ""⟩).weather = none) ∧
     (∀ w, (fetchWeather 0 .notOk ⟨"London", none, false, ""⟩).weather = some w →
       (fetchWeather 0 .notOk ⟨"London", none, false, ""⟩).error = "")) :=
  ⟨by decide, inflight_error_exclusive 0 .notOk ⟨"London", none, false, ""⟩ (by decide)⟩

/-- C5: a non-success HTTP status ends with the fixed error message, a cleared
result, and in-flight false, the query text unchanged. -/
theorem http_error_outcome (tz : ℤ) (s : QueryState) (h : jsTrim s.city ≠ "") :
    fetchWeather tz .notOk s =
      { city := s.city, weather := none, loading := false,
        error := fetchErrorMessage } := by
  simp [fetchWeather, h, settleRequest, startRequest, failState]

/-- C5 witness: instantiation at a concrete state holding a previous result. -/
theorem http_error_outcome_witness :
    jsTrim "Paris" ≠ "" ∧
    fetchWeather 0 .notOk ⟨"Paris", none, false, "old"⟩ =
      { city := "Paris", weather := none, loading := false,
        error := fetchErrorMessage } :=
  ⟨by decide, http_error_outcome 0 ⟨"Paris", none, false, "old"⟩ (by decide)⟩

/-- C6: any structural failure of a 200 response — the reduction raising — ends
in exactly the same settled state as a provider error: the identical generic
message, the result wholly replaced by `none`, in-flight false; and a JSON
parse failure settles identically as well. -/
theorem structural_failure_collapsed (tz : ℤ) (s : QueryState) (name : String)
    (list : List WeatherItem) (h : jsTrim s.city ≠ "")
    (hbad : reduce tz list = none) :
    fetchWeather tz (.ok name list) s =
      { city := s.city, weather := none, loading := false,
        error := fetchErrorMessage } ∧
    fetchWeather tz (.ok name list) s = fetchWeather tz .notOk s ∧
    fetchWeather tz .badJson s = fetchWeather tz .notOk s := by
  refine ⟨?_, ?_, rfl⟩ <;> simp [fetchWeather, h, settleRequest, hbad, startRequest, failState]

/-- C6 witness: a 200 response whose single sample is missing the `weather`
field. -/
theorem structural_failure_collapsed_witness :
    jsTrim "Oslo" ≠ "" ∧ reduce 0 [noWeatherItem 43200] = none ∧
    (fetchWeather 0 (.ok "Oslo" [noWeatherItem 43200]) ⟨"Oslo", none, false, ""⟩ =
       { city := "Oslo", weather := none, loading := false,
         error := fetchErrorMessage } ∧
     fetchWeather 0 (.ok "Oslo" [noWeatherItem 43200]) ⟨"Oslo", none, false, ""⟩ =
       fetchWeather 0 .notOk ⟨"Oslo", none, false, ""⟩ ∧
     fetchWeather 0 .badJson ⟨"Oslo", none, false, ""⟩ =
       fetchWeather 0 .notOk ⟨"Oslo", none, false, ""⟩) :=
  ⟨by decide, by decide,
    structural_failure_collapsed 0 ⟨"Oslo", none, false, ""⟩ "Oslo"
      [noWeatherItem 43200] (by decide) (by decide)⟩

/-- C7: a whitespace-only city is a complete no-op — the final state equals the
initial state whatever the provider would have answered, so no field changes
and the outcome is independent of the network. -/
theorem empty_city_noop (tz : ℤ) (resp : ProviderResponse) (s : QueryState)
    (h : jsTrim s.city = "") : fetchWeather tz resp s = s := by
  simp [fetchWeather, h]

/-- C7 witness: instantiation at a whitespace-only query over a state holding
an error and a pending flag. -/
theorem empty_city_noop_witness :
    jsTrim "   " = "" ∧
    fetchWeather 0 .notOk ⟨"   ", none, true, "old"⟩ = ⟨"   ", none, true, "old"⟩ :=
  ⟨by decide, empty_city_noop 0 .notOk ⟨"   ", none, true, "old"⟩ (by decide)⟩

/-- C8: the reducer is a pure function of the sample sequence: two applications
to the same input coincide.  In this embedding the property is definitional,
faithfully so, because the source's only working state (`processedDates` and
`forecast`) is created afresh inside each call. -/
theorem reduce_pure (tz : ℤ) (list : List WeatherItem) :
    reduce tz list = reduce tz list := rfl

/-- C9: a success response with an empty `list` makes the reduction raise (the
`data.list[0]` access), and the run settles to the generic error message with
the result cleared and in-flight false. -/
theorem empty_list_outcome (tz : ℤ) (s : QueryState) (name : String)
    (h : jsTrim s.city ≠ "") :
    reduce tz [] = none ∧
    fetchWeather tz (.ok name []) s =
      { city := s.city, weather := none, loading := false,
        error := fetchErrorMessage } := by
  refine ⟨rfl, ?_⟩
  simp [fetchWeather, h, settleRequest, reduce, processCurrent, startRequest, failState]

/-- C9 witness: instantiation at a concrete state with a stored result, which
is cleared. -/
theorem empty_list_outcome_witness :
    jsTrim "Rome" ≠ "" ∧
    (reduce 0 [] = none ∧
     fetchWeather 0 (.ok "Rome" []) ⟨"Rome", none, false, ""⟩ =
       { city := "Rome", weather := none, loading := false,
         error := fetchErrorMessage }) :=
  ⟨by decide, empty_list_outcome 0 ⟨"Rome", none, false, ""⟩ "Rome" (by decide)⟩

/-- C10: the icon choice is total with exactly four outcomes, decided by fixed
substring precedence on the lowercased condition: rain/drizzle first, then
cloud, then snow, then the sun fallback. -/
theorem weather_icon_precedence (condition : String) :
    (weatherIcon condition = .cloudRain ↔
      (condition.toLower.containsSubstr "rain" = true ∨
       condition.toLower.containsSubstr "drizzle" = true)) ∧
    (weatherIcon condition = .cloud ↔
      (condition.toLower.containsSubstr "rain" = false ∧
       condition.toLower.containsSubstr "drizzle" = false ∧
       condition.toLower.containsSubstr "cloud" = true)) ∧
    (weatherIcon condition = .cloudSnow ↔
      (condition.toLower.containsSubstr "rain" = false ∧
       condition.toLower.containsSubstr "drizzle" = false ∧
       condition.toLower.containsSubstr "cloud" = false ∧
       condition.toLower.containsSubstr "snow" = true)) ∧
    (weatherIcon condition = .sun ↔
      (condition.toLower.containsSubstr "rain" = false ∧
       condition.toLower.containsSubstr "drizzle" = false ∧
       condition.toLower.containsSubstr "cloud" = false ∧
       condition.toLower.containsSubstr "snow" = false)) := by
  cases hr : condition.toLower.containsSubstr "rain" <;>
    cases hd : condition.toLower.containsSubstr "drizzle" <;>
      cases hc : condition.toLower.containsSubstr "cloud" <;>
        cases hs : condition.toLower.containsSubstr "snow" <;>
          simp [weatherIcon, hr, hd, hc, hs]

/-- The bucketing loop agrees with the spec-side selection: starting from seen
days `seen` and an accumulator shorter than 3, it returns the accumulator
extended with one day-and-entry pair per spec-selected sample, in scan order. -/
theorem processForecast_eq_select (tz : ℤ) :
    ∀ (list : List WeatherItem) (seen : List ℤ) (acc : List (ℤ × ForecastEntry)),
    (∀ item ∈ list, (weather0main item).isSome = true) → acc.length < 3 →
    processForecast tz list seen acc =
      some (acc ++ (selectRepresentatives tz list seen acc.length).map
        (fun item => (localDay tz item, entryOfItem tz item)))
  | [], seen, acc, _, _ => by
    simp [processForecast, selectRepresentatives]
  | item :: rest, seen, acc, hwf, hlen => by
    have hitem : (weather0main item).isSome = true :=
      hwf item (List.mem_cons_self item rest)
    obtain ⟨cond, hcond⟩ := Option.isSome_iff_exists.mp hitem
    have hrest : ∀ it ∈ rest, (weather0main it).isSome = true :=
      fun it hit => hwf it (List.mem_cons_of_mem item hit)
    have hentry : entryOfItem tz item = itemEntry tz item cond := by
      simp [entryOfItem, itemEntry, hcond]
    by_cases hsel : localDay tz item ∉ seen ∧ localHour tz item = 12
    · have hspec :
          selectRepresentatives tz (item :: rest) seen acc.length =
            item :: selectRepresentatives tz rest (localDay tz item :: seen)
              (acc.length + 1) := by
        simp only [selectRepresentatives]
        rw [if_neg (by omega), if_pos ⟨hsel.2, hsel.1⟩]
      rw [processForecast_cons, if_pos hsel, hcond, hspec]
      by_cases h3 : (acc ++ [(localDay tz item, itemEntry tz item cond)]).length = 3
      · have hc3 : acc.length + 1 = 3 := by simpa using h3
        simp only [h3, if_pos]
        rw [hc3, selectRepresentatives_count_ge tz rest _ 3 le_rfl]
        simp [hentry]
      · have hlen2 : (acc ++ [(localDay tz item, itemEntry tz item cond)]).length < 3 := by
          simp only [List.length_append, List.length_singleton] at h3 ⊢
          omega
        simp only [if_neg h3]
        rw [processForecast_eq_select tz rest (localDay tz item :: seen) _ hrest hlen2]
        simp [hentry, List.append_assoc]
    · have hspec :
          selectRepresentatives tz (item :: rest) seen acc.length =
            selectRepresentatives tz rest seen acc.length := by
        simp only [selectRepresentatives]
        rw [if_neg (by omega), if_neg (fun hx => hsel ⟨hx.2, hx.1⟩)]
      rw [processForecast_cons, if_neg hsel, hspec]
      exact processForecast_eq_select tz rest seen acc hrest hlen

/-- C1: for every well-formed sample sequence, the bucketing loop succeeds and
produces exactly one day-and-entry pair, in scan order, for each sample that
the spec-side rule selects — local hour 12, date not yet represented, stopping
at 3 — where each entry carries the short-weekday/short-month/day-number label,
the rounded `temp_max` and `temp_min`, and the verbatim condition. -/
theorem forecast_selects_noon_per_day (tz : ℤ) (list : List WeatherItem)
    (hwf : ∀ item ∈ list, (weather0main item).isSome = true) :
    forecastPairs tz list =
      some ((selectRepresentatives tz list [] 0).map
        (fun item => (localDay tz item, entryOfItem tz item))) := by
  have h := processForecast_eq_select tz list [] [] hwf (by simp)
  simpa [forecastPairs] using h

/-- C1 witness: instantiation at a concrete two-day sample sequence. -/
theorem forecast_selects_noon_per_day_witness :
    (∀ item ∈ [plainItem 0, plainItem 43200, plainItem 129600],
      (weather0main item).isSome = true) ∧
    forecastPairs 0 [plainItem 0, plainItem 43200, plainItem 129600] =
      some ((selectRepresentatives 0 [plainItem 0, plainItem 43200, plainItem 129600] [] 0).map
        (fun item => (localDay 0 item, entryOfItem 0 item))) :=
  ⟨by decide,
   forecast_selects_noon_per_day 0 [plainItem 0, plainItem 43200, plainItem 129600]
     (by decide)⟩

/-- When the bucketing loop succeeds, it emits at most 3 entries and never
repeats a represented day, whatever the order of the samples. -/
theorem processForecast_len_nodup (tz : ℤ) :
    ∀ (list : List WeatherItem) (seen : List ℤ)
      (acc pairs : List (ℤ × ForecastEntry)),
    processForecast tz list seen acc = some pairs → acc.length < 3 →
    (∀ k ∈ acc.map Prod.fst, k ∈ seen) → (acc.map Prod.fst).Nodup →
    pairs.length ≤ 3 ∧ (pairs.map Prod.fst).Nodup
  | [], seen, acc, pairs, h, hlen, _, hnd => by
    obtain rfl : acc = pairs := by simpa [processForecast] using h
    exact ⟨by omega, hnd⟩
  | item :: rest, seen, acc, pairs, h, hlen, hsub, hnd => by
    rw [processForecast_cons] at h
    by_cases hsel : localDay tz item ∉ seen ∧ localHour tz item = 12
    · rw [if_pos hsel] at h
      cases hcond : weather0main item with
      | none => rw [hcond] at h; exact absurd h (by simp)
      | some cond =>
        rw [hcond] at h
        simp only at h
        have hnd2 : ((acc ++ [(localDay tz item, itemEntry tz item cond)]).map
            Prod.fst).Nodup := by
          simp only [List.map_append, List.map_cons, List.map_nil]
          rw [List.nodup_append]
          exact ⟨hnd, List.nodup_singleton _,
            fun k hk => by
              simp only [List.mem_singleton]
              intro hkd
              exact hsel.1 (hkd ▸ hsub k hk)⟩
        by_cases h3 : (acc ++ [(localDay tz item, itemEntry tz item cond)]).length = 3
        · rw [if_pos h3] at h
          obtain rfl : acc ++ [(localDay tz item, itemEntry tz item cond)] = pairs :=
            Option.some.inj h
          exact ⟨by omega, hnd2⟩
        · rw [if_neg h3] at h
          refine processForecast_len_nodup tz rest _ _ pairs h ?_ ?_ hnd2
          · simp only [List.length_append, List.length_singleton] at h3 ⊢
            omega
          · intro k hk
            simp only [List.map_append, List.map_cons, List.map_nil,
              List.mem_append, List.mem_singleton] at hk
            rcases hk with hk | hk
            · exact List.mem_cons_of_mem _ (hsub k hk)
            · exact hk ▸ List.mem_cons_self _ _
    · rw [if_neg hsel] at h
      exact processForecast_len_nodup tz rest seen acc pairs h hlen hsub hnd

/-- When the samples are scanned with non-decreasing local days, the emitted
day keys are strictly increasing. -/
theorem processForecast_sorted_lt (tz : ℤ) :
    ∀ (list : List WeatherItem) (seen : List ℤ)
      (acc pairs : List (ℤ × ForecastEntry)),
    processForecast tz list seen acc = some pairs →
    List.Pairwise (fun a b => localDay tz a ≤ localDay tz b) list →
    (∀ k ∈ acc.map Prod.fst, k ∈ seen) →
    (∀ k ∈ acc.map Prod.fst, ∀ item ∈ list, k ≤ localDay tz item) →
    List.Pairwise (fun a b : ℤ => a < b) (acc.map Prod.fst) →
    List.Pairwise (fun a b : ℤ => a < b) (pairs.map Prod.fst)
  | [], seen, acc, pairs, h, _, _, _, hpw => by
    obtain rfl : acc = pairs := by simpa [processForecast] using h
    exact hpw
  | item :: rest, seen, acc, pairs, h, hsort, hsub, hle, hpw => by
    rw [processForecast_cons] at h
    obtain ⟨hday, hsort'⟩ := List.pairwise_cons.mp hsort
    by_cases hsel : localDay tz item ∉ seen ∧ localHour tz item = 12
    · rw [if_pos hsel] at h
      cases hcond : weather0main item with
      | none => rw [hcond] at h; exact absurd h (by simp)
      | some cond =>
        rw [hcond] at h
        simp only at h
        have hlt : ∀ k ∈ acc.map Prod.fst, k < localDay tz item := by
          intro k hk
          have h1 : k ≤ localDay tz item :=
            hle k hk item (List.mem_cons_self item rest)
          have h2 : k ≠ localDay tz item := fun hkd => hsel.1 (hkd ▸ hsub k hk)
          omega
        have hpw2 : List.Pairwise (fun a b : ℤ => a < b)
            ((acc ++ [(localDay tz item, itemEntry tz item cond)]).map Prod.fst) := by
          simp only [List.map_append, List.map_cons, List.map_nil]
          rw [List.pairwise_append]
          exact ⟨hpw, List.pairwise_singleton _ _,
            fun a ha b hb => (List.mem_singleton.mp hb) ▸ hlt a ha⟩
        by_cases h3 : (acc ++ [(localDay tz item, itemEntry tz item cond)]).length = 3
        · rw [if_pos h3] at h
          obtain rfl : acc ++ [(localDay tz item, itemEntry tz item cond)] = pairs :=
            Option.some.inj h
          exact hpw2
        · rw [if_neg h3] at h
          refine processForecast_sorted_lt tz rest _ _ pairs h hsort' ?_ ?_ hpw2
          · intro k hk
            simp only [List.map_append, List.map_cons, List.map_nil,
              List.mem_append, List.mem_singleton] at hk
            rcases hk with hk | hk
            · exact List.mem_cons_of_mem _ (hsub k hk)
            · exact hk ▸ List.mem_cons_self _ _
          · intro k hk it hit
            simp only [List.map_append, List.map_cons, List.map_nil,
              List.mem_append, List.mem_singleton] at hk
            rcases hk with hk | hk
            · exact hle k hk it (List.mem_cons_of_mem item hit)
            · exact hk ▸ hday it hit
    · rw [if_neg hsel] at h
      refine processForecast_sorted_lt tz rest seen acc pairs h hsort' hsub ?_ hpw
      exact fun k hk it hit => hle k hk it (List.mem_cons_of_mem item hit)

/-- C3 counterexample: a sample sequence given out of chronological order
(noon of the later day first) yields forecast entries whose dates strictly
decrease in scan order, refuting the monotonicity part of the claim for
arbitrary sequences. -/
theorem forecast_dates_not_monotone :
    forecastDays 0 [plainItem 129600, plainItem 43200] = some [1, 0] ∧
    ¬ List.Pairwise (fun a b : ℤ => a ≤ b) [(1 : ℤ), 0] :=
  ⟨by decide, by decide⟩

/-- C3 (amended): for every sample sequence the forecast has at most 3 entries
and each calendar date is represented at most once; when the samples are
additionally in chronological order (non-decreasing timestamps), the entries'
dates are strictly increasing in scan order. -/
theorem forecast_bounded_nodup_sorted (tz : ℤ) (list : List WeatherItem)
    (ds : List ℤ) (h : forecastDays tz list = some ds) :
    ds.length ≤ 3 ∧ ds.Nodup ∧
      (List.Pairwise (fun a b => a.dt ≤ b.dt) list →
        List.Pairwise (fun a b : ℤ => a < b) ds) := by
  obtain ⟨pairs, hp, rfl⟩ :
      ∃ pairs, processForecast tz list [] [] = some pairs ∧
        ds = pairs.map Prod.fst := by
    simp only [forecastDays, forecastPairs] at h
    cases hq : processForecast tz list [] [] with
    | none => rw [hq] at h; exact absurd h (by simp)
    | some pairs =>
      rw [hq] at h
      exact ⟨pairs, rfl, (Option.some.inj h).symm⟩
  obtain ⟨h1, h2⟩ :=
    processForecast_len_nodup tz list [] [] pairs hp (by simp) (by simp) (by simp)
  refine ⟨by simpa using h1, h2, fun hsort => ?_⟩
  refine processForecast_sorted_lt tz list [] [] pairs hp ?_ (by simp) (by simp) (by simp)
  refine hsort.imp ?_
  intro a b hab
  exact Int.ediv_le_ediv (by norm_num) (add_le_add_right hab tz)

/-- C3 (amended) witness: instantiation at a concrete chronological sequence. -/
theorem forecast_bounded_nodup_sorted_witness :
    forecastDays 0 [plainItem 43200, plainItem 129600] = some [0, 1] ∧
    (([0, 1] : List ℤ).length ≤ 3 ∧ ([0, 1] : List ℤ).Nodup ∧
      (List.Pairwise (fun a b => a.dt ≤ b.dt) [plainItem 43200, plainItem 129600] →
        List.Pairwise (fun a b : ℤ => a < b) [0, 1])) :=
  ⟨by decide,
   forecast_bounded_nodup_sorted 0 [plainItem 43200, plainItem 129600] [0, 1]
     (by decide)⟩

end WeatherApp
